import Mathlib

/-!
Verification of the Cafe24 MCP access layer (rate-limited, caching API
client with repository/service layering) against its natural-language
specification.  The Python sources under `src/mcp_server/` are shallowly
embedded: dictionaries become association lists, timestamps become
rationals, raised exceptions become an explicit `PyErr` sum carried in
`Except`, and the HTTP transport / repository boundary becomes an
explicit oracle argument, so that every modelled function is executable.
-/

namespace Cafe24

/-- JSON values, the payload type of every request and response body.
Python dictionaries keep insertion order, so objects are field lists. -/
inductive Json where
  | null : Json
  | bool : Bool → Json
  | int : Int → Json
  | str : String → Json
  | arr : List Json → Json
  | obj : List (String × Json) → Json

/-- First-match association-list lookup: the model of `dict[k]` /`dict.get(k)`
for string-keyed Python dictionaries (keys are unique in practice). -/
def lookupD {α : Type} : List (String × α) → String → Option α
  | [], _ => none
  | (k, v) :: rest, key => if k = key then some v else lookupD rest key

/-- Model of `dict[k] = v`: replace the binding of `k` if present, else
append it (Python dict assignment keeps the original insertion position). -/
def insertD {α : Type} : List (String × α) → String → α → List (String × α)
  | [], key, v => [(key, v)]
  | (k, w) :: rest, key, v =>
      if k = key then (k, v) :: rest else (k, w) :: insertD rest key v

/-- Key lookup on a JSON value: `some v` when the value is an object with
the key bound, `none` otherwise (models `response_data.get(k)` where the
callers only apply it to decoded JSON objects). -/
def getKey : Json → String → Option Json
  | .obj fs, key => lookupD fs key
  | _, _ => none

/-- Python `str.strip()`: drop leading and trailing whitespace (defined
over the character list so that concrete instances evaluate). -/
def pyStrip (s : String) : String :=
  ⟨((s.data.dropWhile Char.isWhitespace).reverse.dropWhile
      Char.isWhitespace).reverse⟩

/-- Python `str.upper()` (over the character list so that concrete
instances evaluate). -/
def pyUpper (s : String) : String :=
  ⟨s.data.map Char.toUpper⟩

/-- Insert one field into a key-sorted field list (insertion-sort step). -/
def insertSorted (p : String × Json) : List (String × Json) → List (String × Json)
  | [] => [p]
  | q :: rest => if p.1 ≤ q.1 then p :: q :: rest else q :: insertSorted p rest

/-- Sort an object's fields by key, the effect of `sort_keys=True`. -/
def sortFields (fs : List (String × Json)) : List (String × Json) :=
  fs.foldr insertSorted []

theorem sizeOf_insertSorted (p : String × Json) (fs : List (String × Json)) :
    sizeOf (insertSorted p fs) = 1 + sizeOf p + sizeOf fs := by
  induction fs with
  | nil => simp [insertSorted]
  | cons q rest ih =>
      by_cases h : p.1 ≤ q.1
      · simp [insertSorted, h]
      · simp [insertSorted, h, ih]
        omega

theorem sizeOf_sortFields (fs : List (String × Json)) :
    sizeOf (sortFields fs) = sizeOf fs := by
  induction fs with
  | nil => rfl
  | cons p rest ih =>
      simp only [sortFields, List.foldr] at *
      rw [sizeOf_insertSorted]
      simp [ih]

mutual
/-- Model of `json.dumps(v, sort_keys=True)` (Python's default separators;
string escaping is not modelled, the claims only need determinism). -/
def dumps : Json → String
  | .null => "null"
  | .bool true => "true"
  | .bool false => "false"
  | .int n => toString n
  | .str v => "\"" ++ v ++ "\""
  | .arr xs => "[" ++ dumpsArr xs ++ "]"
  | .obj fs => "\x7b" ++ dumpsFields (sortFields fs) ++ "\x7d"
termination_by j => sizeOf j
decreasing_by
  · simp
  · simp [sizeOf_sortFields]

/-- Comma-joined serialization of array elements. -/
def dumpsArr : List Json → String
  | [] => ""
  | [x] => dumps x
  | x :: y :: rest => dumps x ++ ", " ++ dumpsArr (y :: rest)
termination_by xs => sizeOf xs
decreasing_by
  all_goals (simp <;> omega)

/-- Comma-joined serialization of (already sorted) object fields. -/
def dumpsFields : List (String × Json) → String
  | [] => ""
  | [(k, v)] => "\"" ++ k ++ "\": " ++ dumps v
  | (k, v) :: q :: rest =>
      "\"" ++ k ++ "\": " ++ dumps v ++ ", " ++ dumpsFields (q :: rest)
termination_by fs => sizeOf fs
decreasing_by
  all_goals (simp <;> omega)
end

/-- Configuration (`Cafe24Config` in `cafe24_config.py`): credential and
tuning fields, immutable after construction.  Timestamps and durations are
rationals (Python floats / ints). -/
structure Cafe24Config where
  base_url : String
  api_version : String
  client_id : String
  client_secret : String
  access_token : String
  mall_id : String
  rate_limit_per_minute : Nat
  timeout_seconds : Nat
  cache_ttl_seconds : ℚ

/-- `Cafe24Config.validate_config`: every required credential field is
non-empty after stripping whitespace (`all(field.strip() for field in …)`). -/
def Cafe24Config.validate_config (c : Cafe24Config) : Bool :=
  [c.client_id, c.client_secret, c.access_token, c.mall_id].all
    (fun field => pyStrip field ≠ "")

/-- `Cafe24Config.get_api_url`: substitute the mall id into the base-url
template and append the endpoint with its leading slashes stripped. -/
def Cafe24Config.get_api_url (c : Cafe24Config) (endpoint : String) : String :=
  (c.base_url.replace "{mall_id}" c.mall_id) ++ "/" ++
    (endpoint.dropWhile (fun ch => ch = '/'))

/-- `ERROR_CODES` of `cafe24_config.py`: the fixed status-code → message
fallback table. -/
def ERROR_CODES : List (Nat × String) :=
  [(400, "잘못된 요청"), (401, "인증 실패"), (403, "권한 없음"),
   (404, "리소스를 찾을 수 없음"), (409, "중복 요청"),
   (422, "유효하지 않은 파라미터"), (429, "요청 한도 초과"),
   (500, "서버 내부 오류"), (503, "서비스 이용 불가"), (504, "요청 시간 초과")]

/-- Numeric-key association lookup, the model of `ERROR_CODES.get(status)`. -/
def lookupN {α : Type} : List (Nat × α) → Nat → Option α
  | [], _ => none
  | (k, v) :: rest, key => if k = key then some v else lookupN rest key

/-- One cache slot as stored by `_make_request`:
`self._cache[key] = {"data": …, "timestamp": time.time()}`. -/
structure CacheEntry where
  data : Json
  timestamp : ℚ

/-- `Cafe24APIClient._get_cache_key`:
`"|".join([method, url] + ([json.dumps(params, sort_keys=True)] if params else []))`.
`params = none` models both an absent and an empty (falsy) dictionary. -/
def cacheKey (method url : String) (params : Option Json) : String :=
  method ++ "|" ++ url ++
    (match params with
     | none => ""
     | some p => "|" ++ dumps p)

/-- `Cafe24APIClient._is_cache_valid` on a present entry:
`time.time() - cached_time < self.config.cache_ttl_seconds`.
(The source's `if not cache_entry: return False` guard and the
`timestamp` default of 0 never fire: entries are only created by the
store path, which always writes both keys.) -/
def isCacheValid (ttl now : ℚ) (entry : CacheEntry) : Bool :=
  now - entry.timestamp < ttl

/-- The cache-consultation step of `_make_request` (lines 99–104): a hit
is a stored entry that is still valid, and yields its `data` payload. -/
def cacheLookup (ttl now : ℚ) (cache : List (String × CacheEntry))
    (key : String) : Option Json :=
  match lookupD cache key with
  | some entry => if isCacheValid ttl now entry then some entry.data else none
  | none => none

/-- The cache-store step of `_make_request` (lines 131–137). -/
def cacheStore (cache : List (String × CacheEntry)) (key : String)
    (body : Json) (now : ℚ) : List (String × CacheEntry) :=
  insertD cache key ⟨body, now⟩

/-- One evaluation of the body of `RateLimiter.acquire` at clock reading
`now`, starting from the recorded-timestamp list `reqs`:
prune, then either admit (append `now`), sleep and retry on the pruned
list, or crash (`self.requests[0]` on an empty list, reachable only when
`max_requests = 0`). -/
inductive AcquireStep where
  | admitted : List ℚ → AcquireStep
  | sleepRetry : ℚ → List ℚ → AcquireStep
  | indexError : AcquireStep

/-- The body of `RateLimiter.acquire` (`cafe24_client.py` lines 31–44). -/
def acquireStep (maxRequests : Nat) (timeWindow now : ℚ) (reqs : List ℚ) :
    AcquireStep :=
  let pruned := reqs.filter (fun t => now - t < timeWindow)
  if pruned.length ≥ maxRequests then
    match pruned.head? with
    | none => .indexError
    | some t0 =>
        let sleepTime := timeWindow - (now - t0)
        if sleepTime > 0 then .sleepRetry sleepTime pruned
        else .admitted (pruned ++ [now])
  else .admitted (pruned ++ [now])

/-- `RateLimiter.acquire` as a whole: the tail recursion after each sleep,
driven by the sequence `times` of clock readings (`times k` is what
`time.time()` returns on the k-th evaluation of the body) and bounded by
`fuel`.  `some (rt, final)` means the call returned at clock reading `rt`
leaving `final` recorded; `none` means the model's fuel ran out (the call
is still sleeping) or the `IndexError` crash. -/
def acquireRun (maxRequests : Nat) (timeWindow : ℚ) (times : Nat → ℚ) :
    Nat → Nat → List ℚ → Option (ℚ × List ℚ)
  | 0, _, _ => none
  | fuel + 1, k, reqs =>
      match acquireStep maxRequests timeWindow (times k) reqs with
      | .admitted final => some (times k, final)
      | .sleepRetry _ pruned =>
          acquireRun maxRequests timeWindow times fuel (k + 1) pruned
      | .indexError => none

/-- Raised Python exceptions as the access layer can produce them.
`api` is `Cafe24APIError(status_code, message, details)`; its message is
kept as JSON because `error_details.get("message", …)` copies whatever
value the upstream body holds.  `keyError` models a dictionary index miss
(`API_ENDPOINTS[…][…]`), `attributeError` models `.get` on a non-dict,
`other` any remaining exception by its `str()` text. -/
inductive PyErr where
  | api : Nat → Json → Json → PyErr
  | keyError : String → PyErr
  | attributeError : String → PyErr
  | other : String → PyErr

/-- Python `str(value)` as used inside f-string interpolation of the
message values this code produces (only strings reach it in practice). -/
def pyStr : Json → String
  | .str v => v
  | .int n => toString n
  | .bool true => "True"
  | .bool false => "False"
  | .null => "None"
  | j => dumps j

/-- Python `str(exception)` for the modelled exceptions:
`Cafe24APIError.__init__` calls `super().__init__(f"[\x7bstatus_code\x7d] \x7bmessage\x7d")`,
`str(KeyError(k))` is the repr `\x27k\x27`, and an `AttributeError` names the
missing attribute. -/
def strOfErr : PyErr → String
  | .api status message _ => "[" ++ toString status ++ "] " ++ pyStr message
  | .keyError k => "\x27" ++ k ++ "\x27"
  | .attributeError ty =>
      "\x27" ++ ty ++ "\x27 object has no attribute \x27get\x27"
  | .other text => text

/-- What the upstream HTTP exchange delivers for one issued request:
a transport failure (`aiohttp.ClientError`), a response whose body fails
JSON decoding (`json.JSONDecodeError` raised by `response.json()`, which
runs before the status code is examined), or a decoded response. -/
inductive HttpOutcome where
  | transportError : String → HttpOutcome
  | decodeError : Nat → String → HttpOutcome
  | response : Nat → Json → HttpOutcome

/-- The mutable state one `Cafe24APIClient` owns: its response cache and
its rate limiter's recorded timestamps. -/
structure ClientState where
  cache : List (String × CacheEntry)
  requests : List ℚ

/-- Result of one `_make_request` call: the returned body or raised
exception, the client state afterwards, and whether an upstream HTTP
request was actually issued. -/
structure MakeResult where
  result : Except PyErr Json
  state : ClientState
  httpIssued : Bool

/-- The error-resolution block of `_make_request` (lines 119–129) for a
status ≥ 400: start from the `ERROR_CODES` fallback (or the fixed
unknown-error text), replace it by the body's `error.message` value when
the body is an object whose `error` field is itself an object carrying
`message`, and raise `Cafe24APIError(status, message, details=body)`.
When the `error` field holds a non-object, `error_details.get` raises
`AttributeError` instead.  (For a non-object body the membership test
`"error" in response_data` is modelled as false, which matches every body
shape the upstream produces.) -/
def httpErrorFor (status : Nat) (body : Json) : PyErr :=
  let base := Json.str ((lookupN ERROR_CODES status).getD "알 수 없는 오류")
  match body with
  | .obj fs =>
      match lookupD fs "error" with
      | some (.obj efs) => .api status ((lookupD efs "message").getD base) body
      | some _ => .attributeError "str"
      | none => .api status base body
  | _ => .api status base body

/-- `Cafe24APIClient._make_request` (lines 83–144).  `now` is the clock
reading for this call (the model reads the clock once per call), `http`
the transport's behaviour should a request be issued, `fuel` bounds the
rate limiter's sleep-retry loop.  `none` means the call is still blocked
inside `RateLimiter.acquire` (or hit its `IndexError`) at the model's
fuel bound. -/
def makeRequest (cfg : Cafe24Config) (method endpoint : String)
    (params : Option Json) (useCache : Bool) (now : ℚ) (fuel : Nat)
    (http : HttpOutcome) (st : ClientState) : Option MakeResult :=
  if cfg.validate_config = false then
    some ⟨.error (.api 401 (.str "API 설정이 유효하지 않습니다.") (.obj [])), st, false⟩
  else
    let url := cfg.get_api_url endpoint
    let key := cacheKey method url params
    let hit : Option Json :=
      if pyUpper method = "GET" ∧ useCache then
        cacheLookup cfg.cache_ttl_seconds now st.cache key
      else none
    match hit with
    | some cached => some ⟨.ok cached, st, false⟩
    | none =>
        match acquireRun cfg.rate_limit_per_minute 60 (fun _ => now) fuel 0
            st.requests with
        | none => none
        | some (_, reqs2) =>
            match http with
            | .transportError msg =>
                some ⟨.error (.api 500 (.str ("네트워크 오류: " ++ msg)) (.obj [])),
                  ⟨st.cache, reqs2⟩, true⟩
            | .decodeError _ msg =>
                some ⟨.error (.api 500 (.str ("응답 파싱 오류: " ++ msg)) (.obj [])),
                  ⟨st.cache, reqs2⟩, true⟩
            | .response status body =>
                if status ≥ 400 then
                  some ⟨.error (httpErrorFor status body), ⟨st.cache, reqs2⟩, true⟩
                else
                  let newCache :=
                    if pyUpper method = "GET" ∧ useCache then
                      cacheStore st.cache key body now
                    else st.cache
                  some ⟨.ok body, ⟨newCache, reqs2⟩, true⟩

/-- A query-parameter value: the repository passes ints and strings. -/
inductive PVal where
  | int : Int → PVal
  | str : String → PVal

/-- `Cafe24Repository.get_products` parameter assembly (lines 42–46):
`params = \x7b"limit": limit, "offset": offset\x7d`, then `if category_no:` /
`if product_name:` append — Python truthiness, so `0` and `""` are
omitted exactly like `None`. -/
def productListParams (limit offset : Int) (category_no : Option Int)
    (product_name : Option String) : List (String × PVal) :=
  let ps := [("limit", PVal.int limit), ("offset", PVal.int offset)]
  let ps := match category_no with
    | some n => if n ≠ 0 then ps ++ [("category_no", PVal.int n)] else ps
    | none => ps
  match product_name with
  | some s => if s ≠ "" then ps ++ [("product_name", PVal.str s)] else ps
  | none => ps

/-- `Cafe24Repository.get_orders` parameter assembly (lines 85–91). -/
def orderListParams (limit offset : Int) (start_date end_date order_status :
    Option String) : List (String × PVal) :=
  let ps := [("limit", PVal.int limit), ("offset", PVal.int offset)]
  let ps := match start_date with
    | some s => if s ≠ "" then ps ++ [("start_date", PVal.str s)] else ps
    | none => ps
  let ps := match end_date with
    | some s => if s ≠ "" then ps ++ [("end_date", PVal.str s)] else ps
    | none => ps
  match order_status with
  | some s => if s ≠ "" then ps ++ [("order_status", PVal.str s)] else ps
  | none => ps

/-- `Cafe24Repository.get_customers` parameter assembly (lines 118–122). -/
def customerListParams (limit offset : Int) (member_id email : Option String) :
    List (String × PVal) :=
  let ps := [("limit", PVal.int limit), ("offset", PVal.int offset)]
  let ps := match member_id with
    | some s => if s ≠ "" then ps ++ [("member_id", PVal.str s)] else ps
    | none => ps
  match email with
  | some s => if s ≠ "" then ps ++ [("email", PVal.str s)] else ps
  | none => ps

/-- `API_ENDPOINTS["products"]` of `cafe24_config.py`. -/
def productsEndpoints : List (String × String) :=
  [("list", "/products"), ("detail", "/products/{product_no}"),
   ("create", "/products"), ("update", "/products/{product_no}"),
   ("delete", "/products/{product_no}"),
   ("variants", "/products/{product_no}/variants"),
   ("options", "/products/{product_no}/options"),
   ("images", "/products/{product_no}/images")]

/-- `API_ENDPOINTS["orders"]` of `cafe24_config.py`. -/
def ordersEndpoints : List (String × String) :=
  [("list", "/orders"), ("detail", "/orders/{order_id}"),
   ("update", "/orders/{order_id}"), ("cancel", "/orders/{order_id}/cancellation"),
   ("exchange", "/orders/{order_id}/exchange"),
   ("return", "/orders/{order_id}/return"), ("items", "/orders/{order_id}/items"),
   ("receivers", "/orders/{order_id}/receivers")]

/-- `API_ENDPOINTS["statistics"]` of `cafe24_config.py` (lines 165–169):
note it binds only `hourlysales`, `productsales` and `salesvolume` —
neither `sales` nor `visitors`, the keys the client and repository
statistics methods index it with. -/
def statisticsEndpoints : List (String × String) :=
  [("hourlysales", "/reports/hourlysales"),
   ("productsales", "/reports/productsales"),
   ("salesvolume", "/reports/salesvolume")]

/-- Python `table[key]` on an endpoint sub-table: the value, or a raised
`KeyError` carrying the missing key. -/
def endpointOf (table : List (String × String)) (key : String) :
    Except PyErr String :=
  match lookupD table key with
  | some v => .ok v
  | none => .error (.keyError key)

/-- The repository's downstream boundary for the full-stack dashboard
model: what `client._make_request(method, endpoint, params=…)` returns or
raises for each issued call. -/
def ExecOracle : Type := String → String → Option Json → Except PyErr Json

/-- Query parameters as the JSON object `_make_request` would receive. -/
def pvalToJson : PVal → Json
  | .int n => .int n
  | .str s => .str s

/-- A parameter list as a JSON object value. -/
def paramsJson (ps : List (String × PVal)) : Json :=
  .obj (ps.map (fun p => (p.1, pvalToJson p.2)))

/-- `Cafe24Repository.get_orders` (lines 75–93) over the client boundary. -/
def repoGetOrders (execO : ExecOracle) (limit offset : Int)
    (start_date end_date order_status : Option String) : Except PyErr Json := do
  let ep ← endpointOf ordersEndpoints "list"
  execO "GET" ep (some (paramsJson
    (orderListParams limit offset start_date end_date order_status)))

/-- `Cafe24Repository.get_products` (lines 33–48) over the client boundary. -/
def repoGetProducts (execO : ExecOracle) (limit offset : Int)
    (category_no : Option Int) (product_name : Option String) :
    Except PyErr Json := do
  let ep ← endpointOf productsEndpoints "list"
  execO "GET" ep (some (paramsJson
    (productListParams limit offset category_no product_name)))

/-- `Cafe24Repository.get_sales_statistics` (lines 161–174): resolves
`API_ENDPOINTS["statistics"]["sales"]` — a key the table does not bind,
so the lookup raises `KeyError("sales")` before any request is issued. -/
def repoGetSalesStatistics (execO : ExecOracle)
    (start_date end_date group_by : String) : Except PyErr Json := do
  let ep ← endpointOf statisticsEndpoints "sales"
  execO "GET" ep (some (Json.obj
    [("start_date", .str start_date), ("end_date", .str end_date),
     ("group_by", .str group_by)]))

/-- `Cafe24Repository.get_visitor_statistics` (lines 176–187): resolves
`API_ENDPOINTS["statistics"]["visitors"]`, likewise unbound. -/
def repoGetVisitorStatistics (execO : ExecOracle)
    (start_date end_date : String) : Except PyErr Json := do
  let ep ← endpointOf statisticsEndpoints "visitors"
  execO "GET" ep (some (Json.obj
    [("start_date", .str start_date), ("end_date", .str end_date)]))

/-- Python `len(x)` for the JSON values the service counts (always a
decoded list in practice). -/
def jsonLen : Json → Nat
  | .arr xs => xs.length
  | .obj fs => fs.length
  | .str s => s.length
  | _ => 0

/-- `Cafe24Service._handle_api_error` (lines 24–43): a `Cafe24APIError`'s
fields are copied into the error envelope; any other exception becomes
code 500 with its `str()` text appended to the fixed prefix. -/
def handleApiError : PyErr → Json
  | .api code message details =>
      .obj [("success", .bool false),
            ("error", .obj [("code", .int code), ("message", message),
                            ("details", details)])]
  | e =>
      .obj [("success", .bool false),
            ("error", .obj [("code", .int 500),
                            ("message", .str ("예상치 못한 오류: " ++ strOfErr e)),
                            ("details", .obj [])])]

/-- The `try/except` wrapper every service operation shares: a repository
result becomes `\x7bsuccess: true, data, message\x7d`, a raised exception is
routed through `_handle_api_error`. -/
def serviceEnvelope (r : Except PyErr Json) (okMsg : Json → String) : Json :=
  match r with
  | .ok d => .obj [("success", .bool true), ("data", d),
                   ("message", .str (okMsg d))]
  | .error e => handleApiError e

/-- One call across the Service → Repository boundary, with the arguments
the service passes (the granularity of the dashboard's four sub-calls). -/
inductive RepoCall where
  | orders : Int → Int → Option String → Option String → Option String → RepoCall
  | sales : String → String → String → RepoCall
  | visitors : String → String → RepoCall
  | products : Int → Int → Option Int → Option String → RepoCall

/-- The repository as the service sees it: each sub-call returns a decoded
body or raises. -/
def RepoOracle : Type := RepoCall → Except PyErr Json

/-- `Cafe24Service.get_products_list` (lines 47–80) over the repository
boundary. -/
def svcGetProductsList (repo : RepoOracle) (limit offset : Int)
    (category_no : Option Int) (product_name : Option String) : Json :=
  serviceEnvelope (repo (.products limit offset category_no product_name))
    (fun result =>
      "상품 목록 조회 완료 (" ++
        toString (jsonLen ((getKey result "products").getD (.arr []))) ++ "건)")

/-- `Cafe24Service.get_sales_statistics` (lines 363–388) over the
repository boundary. -/
def svcGetSalesStatistics (repo : RepoOracle)
    (start_date end_date group_by : String) : Json :=
  serviceEnvelope (repo (.sales start_date end_date group_by))
    (fun _ => "매출 통계 조회 완료 (" ++ start_date ++ " ~ " ++ end_date ++ ")")

/-- The date defaulting at the head of `get_dashboard_summary`:
`if not date: date = datetime.now().strftime("%Y-%m-%d")` — `None` and
the empty string both fall back to today. -/
def resolveDate (today : String) : Option String → String
  | none => today
  | some d => if d = "" then today else d

/-- The merged payload `dashboard_data` (lines 436–441). -/
def dashboardData (orders sales visitors products : Json) : Json :=
  .obj [("orders", (getKey orders "orders").getD (.arr [])),
        ("sales", sales),
        ("visitors", visitors),
        ("recent_products", (getKey products "products").getD (.arr []))]

/-- `Cafe24Service.get_dashboard_summary` (lines 417–450) over the
repository boundary, also recording the trace of issued sub-calls: the
four awaits run in textual order and the first raised exception aborts
the remainder into the single `_handle_api_error` envelope. -/
def dashboardSvc (repo : RepoOracle) (today : String) (date : Option String) :
    Json × List RepoCall :=
  let d := resolveDate today date
  let c1 : RepoCall := .orders 100 0 (some d) (some d) none
  match repo c1 with
  | .error e => (handleApiError e, [c1])
  | .ok orders =>
      let c2 : RepoCall := .sales d d "date"
      match repo c2 with
      | .error e => (handleApiError e, [c1, c2])
      | .ok sales =>
          let c3 : RepoCall := .visitors d d
          match repo c3 with
          | .error e => (handleApiError e, [c1, c2, c3])
          | .ok visitors =>
              let c4 : RepoCall := .products 10 0 none none
              match repo c4 with
              | .error e => (handleApiError e, [c1, c2, c3, c4])
              | .ok products =>
                  (serviceEnvelope (.ok (dashboardData orders sales visitors
                      products))
                    (fun _ => d ++ " 대시보드 요약 조회 완료"),
                   [c1, c2, c3, c4])

/-- `Cafe24Service.get_dashboard_summary` again, this time with the real
repository methods inlined down to their endpoint-table lookups and only
the HTTP client abstracted: the composition the deployed code actually
runs. -/
def dashboardFull (execO : ExecOracle) (today : String) (date : Option String) :
    Json :=
  let d := resolveDate today date
  let r : Except PyErr Json := do
    let orders ← repoGetOrders execO 100 0 (some d) (some d) none
    let sales ← repoGetSalesStatistics execO d d "date"
    let visitors ← repoGetVisitorStatistics execO d d
    let products ← repoGetProducts execO 10 0 none none
    pure (dashboardData orders sales visitors products)
  serviceEnvelope r (fun _ => d ++ " 대시보드 요약 조회 완료")

/-- The success envelope shape every service operation returns on a
normal repository result. -/
def isSuccessEnvelope (j : Json) : Prop :=
  ∃ d m, j = .obj [("success", .bool true), ("data", d), ("message", .str m)]

/-- The error envelope shape `_handle_api_error` produces. -/
def isErrorEnvelope (j : Json) : Prop :=
  ∃ code message details,
    j = .obj [("success", .bool false),
              ("error", .obj [("code", .int code), ("message", message),
                              ("details", details)])]

/-- An envelope that carries none of the dashboard's aggregate data: no
`data` payload and none of the four merged sections, and reports failure. -/
def noPartialData (j : Json) : Prop :=
  getKey j "success" = some (.bool false) ∧
  getKey j "data" = none ∧ getKey j "orders" = none ∧
  getKey j "sales" = none ∧ getKey j "visitors" = none ∧
  getKey j "recent_products" = none

-- ===== Theorems =====

theorem handleApiError_isErrorEnvelope (e : PyErr) :
    isErrorEnvelope (handleApiError e) := by
  cases e with
  | api code message details => exact ⟨code, message, details, rfl⟩
  | keyError k => exact ⟨500, _, _, rfl⟩
  | attributeError ty => exact ⟨500, _, _, rfl⟩
  | other text => exact ⟨500, _, _, rfl⟩

theorem handleApiError_noPartialData (e : PyErr) :
    noPartialData (handleApiError e) := by
  obtain ⟨code, message, details, h⟩ := handleApiError_isErrorEnvelope e
  rw [h]
  refine ⟨?_, ?_, ?_, ?_, ?_, ?_⟩ <;> simp [getKey, lookupD]

theorem serviceEnvelope_shape (r : Except PyErr Json) (okMsg : Json → String) :
    isSuccessEnvelope (serviceEnvelope r okMsg) ∨
    isErrorEnvelope (serviceEnvelope r okMsg) := by
  cases r with
  | ok d => exact Or.inl ⟨d, okMsg d, rfl⟩
  | error e => exact Or.inr (handleApiError_isErrorEnvelope e)

theorem lookupD_insertD_self {α : Type} (m : List (String × α)) (k : String) (v : α) :
    lookupD (insertD m k v) k = some v := by
  induction m with
  | nil => simp [insertD, lookupD]
  | cons p rest ih =>
      by_cases h : p.1 = k
      · simp [insertD, h, lookupD]
      · simp [insertD, h, lookupD, ih]

theorem acquireStep_admitted_eq {maxR : Nat} {window now : ℚ} {reqs final : List ℚ}
    (h : acquireStep maxR window now reqs = .admitted final) :
    final = reqs.filter (fun t => now - t < window) ++ [now] ∧
    (reqs.filter (fun t => now - t < window)).length < maxR := by
  unfold acquireStep at h
  by_cases hlen : (reqs.filter (fun t => now - t < window)).length ≥ maxR
  · simp only [hlen, if_true] at h
    cases hh : (reqs.filter (fun t => now - t < window)).head? with
    | none => rw [hh] at h; exact absurd h (by simp)
    | some t0 =>
        rw [hh] at h
        by_cases hs : window - (now - t0) > 0
        · simp only [hs, if_true] at h
          exact absurd h (by simp)
        · exfalso
          have ht0 : t0 ∈ reqs.filter (fun t => now - t < window) :=
            List.mem_of_mem_head? (by rw [hh]; exact Option.mem_def.mpr rfl)
          have := (List.mem_filter.mp ht0).2
          have hlt : now - t0 < window := by exact_mod_cast of_decide_eq_true this
          exact hs (by linarith)
  · simp only [hlen, if_false] at h
    have hf : reqs.filter (fun t => now - t < window) ++ [now] = final := by
      injection h
    exact ⟨hf.symm, by omega⟩

/-- C2: for every sequence of `RateLimiter.acquire()` calls — hence for
every single call, on whatever recorded-timestamp list earlier calls
left behind — immediately after `acquire()` returns (at clock reading
`rt`), the number of recorded timestamps lying within the trailing
`window_seconds` interval is at most `max_requests`. -/
theorem C2_rateLimiter_window_bound (maxRequests : Nat) (timeWindow : ℚ)
    (times : Nat → ℚ) (fuel k : Nat) (reqs : List ℚ) (rt : ℚ) (final : List ℚ)
    (h : acquireRun maxRequests timeWindow times fuel k reqs = some (rt, final)) :
    (final.filter (fun t => rt - t < timeWindow)).length ≤ maxRequests := by
  induction fuel generalizing k reqs with
  | zero => simp [acquireRun] at h
  | succ n ih =>
      simp only [acquireRun] at h
      cases hstep : acquireStep maxRequests timeWindow (times k) reqs with
      | admitted final2 =>
          rw [hstep] at h
          simp only [Option.some.injEq, Prod.mk.injEq] at h
          obtain ⟨hrt, hfin⟩ := h
          obtain ⟨hshape, hlt⟩ := acquireStep_admitted_eq hstep
          subst hrt hfin hshape
          rw [List.filter_append]
          have h1 : ((reqs.filter (fun t => times k - t < timeWindow)).filter
              (fun t => times k - t < timeWindow)).length ≤
              (reqs.filter (fun t => times k - t < timeWindow)).length :=
            List.length_filter_le _ _
          have h2 : ([times k].filter (fun t => times k - t < timeWindow)).length ≤
              [times k].length := List.length_filter_le _ _
          simp only [List.length_append, List.length_singleton] at *
          omega
      | sleepRetry s pruned =>
          rw [hstep] at h
          exact ih (k + 1) pruned h
      | indexError =>
          rw [hstep] at h
          exact absurd h (by simp)

/-- C2 witness: a concrete admitted call — limits 1000 per 60s, empty
record, admission at clock 0 — returns with one recorded timestamp,
within the bound. -/
theorem C2_rateLimiter_window_bound_witness :
    acquireRun 1000 60 (fun _ => 0) 1 0 [] = some (0, [0]) ∧
    (([0] : List ℚ).filter (fun t => 0 - t < 60)).length ≤ 1000 := by
  have h : acquireRun 1000 60 (fun _ => 0) 1 0 [] = some (0, [0]) := by
    simp [acquireRun, acquireStep]
  exact ⟨h, C2_rateLimiter_window_bound 1000 60 (fun _ => 0) 1 0 [] 0 [0] h⟩

/-- C6: cache round-trip and validity.  After storing payload `P` under
key `K` at time `t`: a lookup of `K` at `t\x27` with `t\x27 - t < ttl` returns
`P` unchanged; a lookup with `t\x27 - t ≥ ttl` reports the entry absent; an
entry is valid iff `now - stored_at < ttl` (strict); and across every
`_make_request` branch the cache either is left unchanged or gains exactly
the body of a successful (`status < 400`) cache-enabled GET response. -/
theorem C6_cache_roundtrip (cache : List (String × CacheEntry)) (K : String)
    (P : Json) (t t' ttl : ℚ) :
    (t' - t < ttl → cacheLookup ttl t' (cacheStore cache K P t) K = some P) ∧
    (ttl ≤ t' - t → cacheLookup ttl t' (cacheStore cache K P t) K = none) ∧
    (∀ entry : CacheEntry,
      isCacheValid ttl t' entry = true ↔ t' - entry.timestamp < ttl) ∧
    (∀ (cfg : Cafe24Config) (method endpoint : String) (params : Option Json)
       (useCache : Bool) (now : ℚ) (fuel : Nat) (http : HttpOutcome)
       (st : ClientState) (out : MakeResult),
       makeRequest cfg method endpoint params useCache now fuel http st =
         some out →
       out.state.cache = st.cache ∨
       (pyUpper method = "GET" ∧ useCache = true ∧
        ∃ status body, http = .response status body ∧ status < 400 ∧
          out.result = .ok body ∧
          out.state.cache = cacheStore st.cache
            (cacheKey method (cfg.get_api_url endpoint) params) body now)) := by
  refine ⟨?_, ?_, ?_, ?_⟩
  · intro h
    simp [cacheLookup, cacheStore, lookupD_insertD_self, isCacheValid, h]
  · intro h
    simp [cacheLookup, cacheStore, lookupD_insertD_self, isCacheValid]
    linarith
  · intro entry
    simp [isCacheValid]
  · intro cfg method endpoint params useCache now fuel http st out h
    unfold makeRequest at h
    split at h
    · injection h with h2; subst h2; left; rfl
    · dsimp only at h
      split at h
      · injection h with h2; subst h2; left; rfl
      · split at h
        · exact absurd h (by simp)
        · split at h
          · injection h with h2; subst h2; left; rfl
          · injection h with h2; subst h2; left; rfl
          · rename_i status body
            split at h
            · injection h with h2; subst h2; left; rfl
            · rename_i hstatus
              split at h
              · rename_i hget
                injection h with h2; subst h2
                right
                exact ⟨hget.1, hget.2, status, body, rfl, by omega, rfl, rfl⟩
              · injection h with h2; subst h2; left; rfl

/-- C6 witness: storing `null` under key `k` at time 0 and looking it up
at time 0 (within the default 300-second TTL) returns it unchanged. -/
theorem C6_cache_roundtrip_witness :
    ((0 : ℚ) - 0 < 300) ∧
    cacheLookup 300 0 (cacheStore [] "k" Json.null 0) "k" = some Json.null := by
  have h : (0 : ℚ) - 0 < 300 := by simp
  exact ⟨h, (C6_cache_roundtrip [] "k" Json.null 0 0 300).1 h⟩

/-- C8: the configuration check `validate_config` is exactly that every
required credential field (client id, client secret, access token, mall
id) is non-blank, and a `_make_request` call on a configuration failing
it raises `Cafe24APIError(401, …)` with no HTTP request issued and the
rate limiter's timestamp list and the response cache left untouched. -/
theorem C8_invalid_config_fails_early (cfg : Cafe24Config)
    (method endpoint : String) (params : Option Json) (useCache : Bool)
    (now : ℚ) (fuel : Nat) (http : HttpOutcome) (st : ClientState)
    (h : cfg.validate_config = false) :
    makeRequest cfg method endpoint params useCache now fuel http st =
      some ⟨.error (.api 401 (.str "API 설정이 유효하지 않습니다.") (.obj [])),
        st, false⟩ ∧
    (∀ c : Cafe24Config, c.validate_config = true ↔
      (pyStrip c.client_id ≠ "" ∧ pyStrip c.client_secret ≠ "" ∧
       pyStrip c.access_token ≠ "" ∧ pyStrip c.mall_id ≠ "")) := by
  constructor
  · unfold makeRequest
    rw [h]
    rfl
  · intro c
    simp [Cafe24Config.validate_config]

/-- C8 witness: a configuration whose client id is blank fails validation
and gets the 401 response with the state unchanged. -/
theorem C8_invalid_config_fails_early_witness :
    (Cafe24Config.validate_config ⟨"https://x", "v1", " ", "sec", "tok", "mall",
      1000, 30, 300⟩ = false) ∧
    makeRequest ⟨"https://x", "v1", " ", "sec", "tok", "mall", 1000, 30, 300⟩
      "GET" "/products" none true 0 1 (.response 200 Json.null) ⟨[], []⟩ =
      some ⟨.error (.api 401 (.str "API 설정이 유효하지 않습니다.") (.obj [])),
        ⟨[], []⟩, false⟩ := by
  have h : Cafe24Config.validate_config ⟨"https://x", "v1", " ", "sec", "tok",
      "mall", 1000, 30, 300⟩ = false := by decide
  exact ⟨h, (C8_invalid_config_fails_early _ "GET" "/products" none true 0 1
    (.response 200 Json.null) ⟨[], []⟩ h).1⟩

/-- C10: when the upstream response body fails JSON decoding, any call
that reaches the HTTP exchange (valid configuration, no fresh cache hit,
rate limiter admits) raises a 500 decode error whatever the recorded HTTP
status — `response.json()` runs before the status code is examined, so a
4xx/5xx status with a non-JSON body never surfaces as that status. -/
theorem C10_undecodable_body_is_500 (cfg : Cafe24Config)
    (method endpoint : String) (params : Option Json) (useCache : Bool)
    (now : ℚ) (fuel : Nat) (st : ClientState) (status : Nat) (msg : String)
    (rt : ℚ) (reqs2 : List ℚ)
    (hcfg : cfg.validate_config = true)
    (hmiss : cacheLookup cfg.cache_ttl_seconds now st.cache
      (cacheKey method (cfg.get_api_url endpoint) params) = none)
    (hacq : acquireRun cfg.rate_limit_per_minute 60 (fun _ => now) fuel 0
      st.requests = some (rt, reqs2)) :
    makeRequest cfg method endpoint params useCache now fuel
      (.decodeError status msg) st =
      some ⟨.error (.api 500 (.str ("응답 파싱 오류: " ++ msg)) (.obj [])),
        ⟨st.cache, reqs2⟩, true⟩ := by
  unfold makeRequest
  rw [if_neg (by simp [hcfg])]
  simp only [hmiss, ite_self]
  rw [hacq]

/-- C10 witness: a 404 response with an undecodable body surfaces as the
500 decode error, not as 404. -/
theorem C10_undecodable_body_is_500_witness :
    makeRequest ⟨"https://x", "v1", "id", "sec", "tok", "mall", 1000, 30, 300⟩
      "GET" "/products" none true 0 1 (.decodeError 404 "broken") ⟨[], []⟩ =
      some ⟨.error (.api 500 (.str ("응답 파싱 오류: " ++ "broken")) (.obj [])),
        ⟨[], [0]⟩, true⟩ := by
  exact C10_undecodable_body_is_500 _ "GET" "/products" none true 0 1 ⟨[], []⟩
    404 "broken" 0 [0] (by decide) rfl (by simp [acquireRun, acquireStep])

/-- C5: a cache-enabled GET that misses the cache, is admitted by the
rate limiter and succeeds (`status < 400`) issues one HTTP request and
returns the body; a second GET with identical method, resolved URL and
parameters, made while the stored entry is still within
`cache_ttl_seconds`, issues no HTTP request at all — whatever the
transport would have answered — and returns the identical payload with
the client state unchanged. -/
theorem C5_second_get_hits_cache (cfg : Cafe24Config) (endpoint : String)
    (params : Option Json) (st : ClientState) (t1 t2 : ℚ) (fuel : Nat)
    (status : Nat) (P : Json) (rt : ℚ) (reqs2 : List ℚ)
    (hcfg : cfg.validate_config = true)
    (hmiss : cacheLookup cfg.cache_ttl_seconds t1 st.cache
      (cacheKey "GET" (cfg.get_api_url endpoint) params) = none)
    (hacq : acquireRun cfg.rate_limit_per_minute 60 (fun _ => t1) fuel 0
      st.requests = some (rt, reqs2))
    (hok : status < 400)
    (hfresh : t2 - t1 < cfg.cache_ttl_seconds) :
    makeRequest cfg "GET" endpoint params true t1 fuel
        (.response status P) st =
      some ⟨.ok P, ⟨cacheStore st.cache
        (cacheKey "GET" (cfg.get_api_url endpoint) params) P t1, reqs2⟩, true⟩ ∧
    (∀ (http2 : HttpOutcome) (fuel2 : Nat),
      makeRequest cfg "GET" endpoint params true t2 fuel2 http2
          ⟨cacheStore st.cache
            (cacheKey "GET" (cfg.get_api_url endpoint) params) P t1, reqs2⟩ =
        some ⟨.ok P, ⟨cacheStore st.cache
          (cacheKey "GET" (cfg.get_api_url endpoint) params) P t1, reqs2⟩,
          false⟩) := by
  have hget : pyUpper "GET" = "GET" := by decide
  constructor
  · unfold makeRequest
    rw [if_neg (by simp [hcfg])]
    simp only [hmiss, ite_self]
    rw [hacq]
    simp only [if_neg (by omega : ¬ status ≥ 400)]
    simp [hget]
  · intro http2 fuel2
    unfold makeRequest
    rw [if_neg (by simp [hcfg])]
    have hhit : cacheLookup cfg.cache_ttl_seconds t2
        (cacheStore st.cache
          (cacheKey "GET" (cfg.get_api_url endpoint) params) P t1)
        (cacheKey "GET" (cfg.get_api_url endpoint) params) = some P := by
      simp [cacheLookup, cacheStore, lookupD_insertD_self, isCacheValid, hfresh]
    simp [hget, hhit]

/-- C5 witness: a concrete pair of identical product-list GETs 1 second
apart — the first issues the single HTTP request and stores the payload,
the second is served from the cache with no HTTP request. -/
theorem C5_second_get_hits_cache_witness :
    makeRequest ⟨"https://x", "v1", "id", "sec", "tok", "mall", 1000, 30, 300⟩
        "GET" "/products" none true 0 1 (.response 200 Json.null) ⟨[], []⟩ =
      some ⟨.ok Json.null, ⟨cacheStore []
        (cacheKey "GET" (Cafe24Config.get_api_url
          ⟨"https://x", "v1", "id", "sec", "tok", "mall", 1000, 30, 300⟩
          "/products") none) Json.null 0, [0]⟩, true⟩ ∧
    (∀ (http2 : HttpOutcome) (fuel2 : Nat),
      makeRequest ⟨"https://x", "v1", "id", "sec", "tok", "mall", 1000, 30, 300⟩
          "GET" "/products" none true 1 fuel2 http2
          ⟨cacheStore []
            (cacheKey "GET" (Cafe24Config.get_api_url
              ⟨"https://x", "v1", "id", "sec", "tok", "mall", 1000, 30, 300⟩
              "/products") none) Json.null 0, [0]⟩ =
        some ⟨.ok Json.null, ⟨cacheStore []
          (cacheKey "GET" (Cafe24Config.get_api_url
            ⟨"https://x", "v1", "id", "sec", "tok", "mall", 1000, 30, 300⟩
            "/products") none) Json.null 0, [0]⟩, false⟩) := by
  exact C5_second_get_hits_cache
    ⟨"https://x", "v1", "id", "sec", "tok", "mall", 1000, 30, 300⟩
    "/products" none ⟨[], []⟩ 0 1 1 200 Json.null 0 [0]
    (by decide) rfl (by simp [acquireRun, acquireStep]) (by decide) (by simp)

/-- C3: for a status ≥ 400 with an entry in the fallback table, the
raised `Cafe24APIError` carries that status code and resolves its message
from the body: exactly the `error.message` value when the body holds an
error object with a `message` field, the table entry otherwise (error key
absent, or error object without `message`); and any call reaching the
HTTP exchange raises exactly this error with the body as `details`. -/
theorem C3_error_message_resolution (status : Nat) (entry : String)
    (hst : 400 ≤ status) (hentry : lookupN ERROR_CODES status = some entry) :
    (∀ fs, lookupD fs "error" = none →
      httpErrorFor status (.obj fs) = .api status (.str entry) (.obj fs)) ∧
    (∀ fs efs v, lookupD fs "error" = some (.obj efs) →
      lookupD efs "message" = some v →
      httpErrorFor status (.obj fs) = .api status v (.obj fs)) ∧
    (∀ fs efs, lookupD fs "error" = some (.obj efs) →
      lookupD efs "message" = none →
      httpErrorFor status (.obj fs) = .api status (.str entry) (.obj fs)) ∧
    (∀ (cfg : Cafe24Config) (method endpoint : String) (params : Option Json)
       (useCache : Bool) (now : ℚ) (fuel : Nat) (st : ClientState)
       (body : Json) (rt : ℚ) (reqs2 : List ℚ),
       cfg.validate_config = true →
       cacheLookup cfg.cache_ttl_seconds now st.cache
         (cacheKey method (cfg.get_api_url endpoint) params) = none →
       acquireRun cfg.rate_limit_per_minute 60 (fun _ => now) fuel 0
         st.requests = some (rt, reqs2) →
       makeRequest cfg method endpoint params useCache now fuel
         (.response status body) st =
         some ⟨.error (httpErrorFor status body), ⟨st.cache, reqs2⟩, true⟩) := by
  refine ⟨?_, ?_, ?_, ?_⟩
  · intro fs h
    simp [httpErrorFor, h, hentry]
  · intro fs efs v h hm
    simp [httpErrorFor, h, hm]
  · intro fs efs h hm
    simp [httpErrorFor, h, hm, hentry]
  · intro cfg method endpoint params useCache now fuel st body rt reqs2
      hcfg hmiss hacq
    unfold makeRequest
    rw [if_neg (by simp [hcfg])]
    simp only [hmiss, ite_self]
    rw [hacq]
    simp only [if_pos (by omega : status ≥ 400)]

/-- C3 witness: the two spec examples — upstream 404 with no error body
resolves to the table entry for 404, and upstream 422 with body
`\x7b"error": \x7b"message": "bad price"\x7d\x7d` resolves to exactly
`"bad price"`. -/
theorem C3_error_message_resolution_witness :
    httpErrorFor 404 (.obj []) =
      .api 404 (.str "리소스를 찾을 수 없음") (.obj []) ∧
    httpErrorFor 422
        (.obj [("error", .obj [("message", .str "bad price")])]) =
      .api 422 (.str "bad price")
        (.obj [("error", .obj [("message", .str "bad price")])]) := by
  constructor
  · exact (C3_error_message_resolution 404 "리소스를 찾을 수 없음"
      (by decide) (by decide)).1 [] rfl
  · exact (C3_error_message_resolution 422 "유효하지 않은 파라미터"
      (by decide) (by decide)).2.1
      [("error", .obj [("message", .str "bad price")])]
      [("message", .str "bad price")] (.str "bad price") rfl rfl

/-- C4: the service recovery boundary.  On a normal repository result the
operation wrapper returns the success envelope with the data and message;
a raised `Cafe24APIError` is translated with its status code, message and
details copied; any other raised exception is translated to code 500 with
the fixed prefix and its `str()` text; and the modelled public service
operations (product list, sales statistics, dashboard summary) always
return one of the two envelope shapes — no exception escapes. -/
theorem C4_service_envelope_total :
    (∀ (d : Json) (okMsg : Json → String),
      serviceEnvelope (.ok d) okMsg =
        .obj [("success", .bool true), ("data", d),
              ("message", .str (okMsg d))]) ∧
    (∀ (code : Nat) (message details : Json) (okMsg : Json → String),
      serviceEnvelope (.error (.api code message details)) okMsg =
        .obj [("success", .bool false),
              ("error", .obj [("code", .int code), ("message", message),
                              ("details", details)])]) ∧
    (∀ (e : PyErr) (okMsg : Json → String),
      (∀ code message details, e ≠ .api code message details) →
      serviceEnvelope (.error e) okMsg =
        .obj [("success", .bool false),
              ("error", .obj [("code", .int 500),
                ("message", .str ("예상치 못한 오류: " ++ strOfErr e)),
                ("details", .obj [])])]) ∧
    (∀ (repo : RepoOracle) (limit offset : Int) (category_no : Option Int)
       (product_name : Option String),
      isSuccessEnvelope (svcGetProductsList repo limit offset category_no
        product_name) ∨
      isErrorEnvelope (svcGetProductsList repo limit offset category_no
        product_name)) ∧
    (∀ (repo : RepoOracle) (sd ed gb : String),
      isSuccessEnvelope (svcGetSalesStatistics repo sd ed gb) ∨
      isErrorEnvelope (svcGetSalesStatistics repo sd ed gb)) ∧
    (∀ (repo : RepoOracle) (today : String) (date : Option String),
      isSuccessEnvelope (dashboardSvc repo today date).1 ∨
      isErrorEnvelope (dashboardSvc repo today date).1) := by
  refine ⟨fun d okMsg => rfl, fun code message details okMsg => rfl,
    ?_, ?_, ?_, ?_⟩
  · intro e okMsg hne
    cases e with
    | api code message details => exact absurd rfl (hne code message details)
    | keyError k => rfl
    | attributeError ty => rfl
    | other text => rfl
  · intro repo limit offset category_no product_name
    exact serviceEnvelope_shape _ _
  · intro repo sd ed gb
    exact serviceEnvelope_shape _ _
  · intro repo today date
    simp only [dashboardSvc]
    rcases h1 : repo (.orders 100 0 (some (resolveDate today date))
        (some (resolveDate today date)) none) with e | orders
    · simp only [h1]
      exact Or.inr (handleApiError_isErrorEnvelope e)
    · rcases h2 : repo (.sales (resolveDate today date)
          (resolveDate today date) "date") with e | sales
      · simp only [h1, h2]
        exact Or.inr (handleApiError_isErrorEnvelope e)
      · rcases h3 : repo (.visitors (resolveDate today date)
            (resolveDate today date)) with e | visitors
        · simp only [h1, h2, h3]
          exact Or.inr (handleApiError_isErrorEnvelope e)
        · rcases h4 : repo (.products 10 0 none none) with e | products
          · simp only [h1, h2, h3, h4]
            exact Or.inr (handleApiError_isErrorEnvelope e)
          · simp only [h1, h2, h3, h4]
            exact serviceEnvelope_shape _ _

/-- C4 witness: the non-`Cafe24APIError` translation at a concrete
exception — a `KeyError` becomes the 500 envelope with its repr text. -/
theorem C4_service_envelope_total_witness :
    serviceEnvelope (.error (.keyError "sales")) (fun _ => "m") =
      .obj [("success", .bool false),
            ("error", .obj [("code", .int 500),
              ("message", .str ("예상치 못한 오류: " ++ strOfErr
                (.keyError "sales"))),
              ("details", .obj [])])] := by
  exact C4_service_envelope_total.2.2.1 (.keyError "sales") (fun _ => "m")
    (fun code message details h => by simp at h)

theorem except_bind_error {α β γ : Type} (e : α) (f : β → Except α γ) :
    (Except.error e >>= f) = Except.error e := rfl

theorem except_bind_ok {α β γ : Type} (b : β) (f : β → Except α γ) :
    (Except.ok b >>= f) = f b := rfl

theorem repoGetSalesStatistics_keyError (execO : ExecOracle)
    (start_date end_date group_by : String) :
    repoGetSalesStatistics execO start_date end_date group_by =
      .error (.keyError "sales") := rfl

theorem repoGetVisitorStatistics_keyError (execO : ExecOracle)
    (start_date end_date : String) :
    repoGetVisitorStatistics execO start_date end_date =
      .error (.keyError "visitors") := rfl

theorem dashboardFull_always_error (execO : ExecOracle) (today : String)
    (date : Option String) :
    ∃ e : PyErr, dashboardFull execO today date = handleApiError e := by
  unfold dashboardFull
  rcases h1 : repoGetOrders execO 100 0 (some (resolveDate today date))
      (some (resolveDate today date)) none with e | orders
  · exact ⟨e, by simp [h1, except_bind_error, serviceEnvelope]⟩
  · refine ⟨.keyError "sales", ?_⟩
    simp [h1, except_bind_ok, repoGetSalesStatistics_keyError,
      except_bind_error, serviceEnvelope]

/-- C7: a failure in any dashboard sub-call aborts the aggregate: the
service returns the single `_handle_api_error` envelope of the first
raised exception, issues no later sub-calls, and the envelope carries no
partial `orders`/`sales`/`visitors`/`recent_products` data and no `data`
payload at all. -/
theorem C7_dashboard_failure_aborts (repo : RepoOracle) (today : String)
    (date : Option String) (e : PyErr) :
    (repo (.orders 100 0 (some (resolveDate today date))
        (some (resolveDate today date)) none) = .error e →
      dashboardSvc repo today date =
        (handleApiError e,
         [.orders 100 0 (some (resolveDate today date))
            (some (resolveDate today date)) none]) ∧
      noPartialData (dashboardSvc repo today date).1) ∧
    (∀ orders, repo (.orders 100 0 (some (resolveDate today date))
        (some (resolveDate today date)) none) = .ok orders →
      repo (.sales (resolveDate today date) (resolveDate today date) "date") =
        .error e →
      dashboardSvc repo today date =
        (handleApiError e,
         [.orders 100 0 (some (resolveDate today date))
            (some (resolveDate today date)) none,
          .sales (resolveDate today date) (resolveDate today date) "date"]) ∧
      noPartialData (dashboardSvc repo today date).1) ∧
    (∀ orders sales,
      repo (.orders 100 0 (some (resolveDate today date))
        (some (resolveDate today date)) none) = .ok orders →
      repo (.sales (resolveDate today date) (resolveDate today date) "date") =
        .ok sales →
      repo (.visitors (resolveDate today date) (resolveDate today date)) =
        .error e →
      dashboardSvc repo today date =
        (handleApiError e,
         [.orders 100 0 (some (resolveDate today date))
            (some (resolveDate today date)) none,
          .sales (resolveDate today date) (resolveDate today date) "date",
          .visitors (resolveDate today date) (resolveDate today date)]) ∧
      noPartialData (dashboardSvc repo today date).1) ∧
    (∀ orders sales visitors,
      repo (.orders 100 0 (some (resolveDate today date))
        (some (resolveDate today date)) none) = .ok orders →
      repo (.sales (resolveDate today date) (resolveDate today date) "date") =
        .ok sales →
      repo (.visitors (resolveDate today date) (resolveDate today date)) =
        .ok visitors →
      repo (.products 10 0 none none) = .error e →
      dashboardSvc repo today date =
        (handleApiError e,
         [.orders 100 0 (some (resolveDate today date))
            (some (resolveDate today date)) none,
          .sales (resolveDate today date) (resolveDate today date) "date",
          .visitors (resolveDate today date) (resolveDate today date),
          .products 10 0 none none]) ∧
      noPartialData (dashboardSvc repo today date).1) := by
  refine ⟨?_, ?_, ?_, ?_⟩
  · intro h1
    have heq : dashboardSvc repo today date =
        (handleApiError e,
         [.orders 100 0 (some (resolveDate today date))
            (some (resolveDate today date)) none]) := by
      simp only [dashboardSvc, h1]
    exact ⟨heq, by rw [heq]; exact handleApiError_noPartialData e⟩
  · intro orders h1 h2
    have heq : dashboardSvc repo today date =
        (handleApiError e,
         [.orders 100 0 (some (resolveDate today date))
            (some (resolveDate today date)) none,
          .sales (resolveDate today date) (resolveDate today date) "date"]) := by
      simp only [dashboardSvc, h1, h2]
    exact ⟨heq, by rw [heq]; exact handleApiError_noPartialData e⟩
  · intro orders sales h1 h2 h3
    have heq : dashboardSvc repo today date =
        (handleApiError e,
         [.orders 100 0 (some (resolveDate today date))
            (some (resolveDate today date)) none,
          .sales (resolveDate today date) (resolveDate today date) "date",
          .visitors (resolveDate today date) (resolveDate today date)]) := by
      simp only [dashboardSvc, h1, h2, h3]
    exact ⟨heq, by rw [heq]; exact handleApiError_noPartialData e⟩
  · intro orders sales visitors h1 h2 h3 h4
    have heq : dashboardSvc repo today date =
        (handleApiError e,
         [.orders 100 0 (some (resolveDate today date))
            (some (resolveDate today date)) none,
          .sales (resolveDate today date) (resolveDate today date) "date",
          .visitors (resolveDate today date) (resolveDate today date),
          .products 10 0 none none]) := by
      simp only [dashboardSvc, h1, h2, h3, h4]
    exact ⟨heq, by rw [heq]; exact handleApiError_noPartialData e⟩

/-- C7 witness: a repository whose sales-statistics call raises a 503
while the orders call succeeds — the dashboard for `2024-01-01` stops
after the sales sub-call and returns only the error envelope. -/
theorem C7_dashboard_failure_aborts_witness :
    (dashboardSvc
        (fun c => match c with
          | .sales _ _ _ => .error (.api 503 (.str "down") (.obj []))
          | _ => .ok (.obj []))
        "2024-01-01" none) =
      (handleApiError (.api 503 (.str "down") (.obj [])),
       [.orders 100 0 (some "2024-01-01") (some "2024-01-01") none,
        .sales "2024-01-01" "2024-01-01" "date"]) ∧
    noPartialData (dashboardSvc
        (fun c => match c with
          | .sales _ _ _ => .error (.api 503 (.str "down") (.obj []))
          | _ => .ok (.obj []))
        "2024-01-01" none).1 := by
  exact (C7_dashboard_failure_aborts
      (fun c => match c with
        | .sales _ _ _ => .error (.api 503 (.str "down") (.obj []))
        | _ => .ok (.obj []))
      "2024-01-01" none (.api 503 (.str "down") (.obj []))).2.1
    (.obj []) rfl rfl

/-- C9 counterexample: the claim as stated — every supplied (non-absent)
optional filter appears in the query mapping — is false: `get_products`
called with `category_no = 0` (supplied, not `None`) omits the filter,
because the source guards each optional filter with Python truthiness
(`if category_no:`), not with an is-present test. -/
theorem C9_supplied_falsy_filter_omitted :
    ¬ (∀ category_no : Option Int, category_no ≠ none →
        lookupD (productListParams 10 0 category_no none) "category_no" ≠
          none) := by
  intro h
  exact h (some 0) (by simp) (by simp [productListParams, lookupD])

/-- C9 (amended): each repository list operation's query mapping always
binds `limit` and `offset`, and binds an optional filter exactly when it
was supplied with a truthy value (non-`None` and nonzero / non-empty);
a filter that is unset — or supplied as `0` or `""` — is omitted rather
than included with a null value. -/
theorem C9_param_mapping_truthy_filters (limit offset : Int)
    (category_no : Option Int)
    (product_name start_date end_date order_status member_id email :
      Option String) :
    (lookupD (productListParams limit offset category_no product_name)
        "limit" = some (.int limit) ∧
     lookupD (productListParams limit offset category_no product_name)
        "offset" = some (.int offset) ∧
     lookupD (productListParams limit offset category_no product_name)
        "category_no" =
       (match category_no with
        | some n => if n ≠ 0 then some (.int n) else none
        | none => none) ∧
     lookupD (productListParams limit offset category_no product_name)
        "product_name" =
       (match product_name with
        | some s => if s ≠ "" then some (.str s) else none
        | none => none)) ∧
    (lookupD (orderListParams limit offset start_date end_date order_status)
        "limit" = some (.int limit) ∧
     lookupD (orderListParams limit offset start_date end_date order_status)
        "offset" = some (.int offset) ∧
     lookupD (orderListParams limit offset start_date end_date order_status)
        "start_date" =
       (match start_date with
        | some s => if s ≠ "" then some (.str s) else none
        | none => none) ∧
     lookupD (orderListParams limit offset start_date end_date order_status)
        "end_date" =
       (match end_date with
        | some s => if s ≠ "" then some (.str s) else none
        | none => none) ∧
     lookupD (orderListParams limit offset start_date end_date order_status)
        "order_status" =
       (match order_status with
        | some s => if s ≠ "" then some (.str s) else none
        | none => none)) ∧
    (lookupD (customerListParams limit offset member_id email)
        "limit" = some (.int limit) ∧
     lookupD (customerListParams limit offset member_id email)
        "offset" = some (.int offset) ∧
     lookupD (customerListParams limit offset member_id email)
        "member_id" =
       (match member_id with
        | some s => if s ≠ "" then some (.str s) else none
        | none => none) ∧
     lookupD (customerListParams limit offset member_id email)
        "email" =
       (match email with
        | some s => if s ≠ "" then some (.str s) else none
        | none => none)) := by
  refine ⟨?_, ?_, ?_⟩
  · rcases category_no with _ | n <;> rcases product_name with _ | pn <;>
      refine ⟨?_, ?_, ?_, ?_⟩ <;>
      simp only [productListParams] <;> (repeat' split) <;> simp_all [lookupD]
  · rcases start_date with _ | sd <;> rcases end_date with _ | ed <;>
      rcases order_status with _ | os <;>
      refine ⟨?_, ?_, ?_, ?_, ?_⟩ <;>
      simp only [orderListParams] <;> (repeat' split) <;> simp_all [lookupD]
  · rcases member_id with _ | mi <;> rcases email with _ | em <;>
      refine ⟨?_, ?_, ?_, ?_⟩ <;>
      simp only [customerListParams] <;> (repeat' split) <;> simp_all [lookupD]

/-- C1: evaluation of the dashboard composition as deployed.  The
statistics endpoint table binds neither `sales` nor `visitors`, so the
repository's sales-statistics method raises `KeyError("sales")` on every
call; consequently `get_dashboard_summary` — whatever the upstream
transport would answer and whatever the date — never reaches its
success-merging branch: it always returns a failure envelope, and with an
upstream that answers every issued request successfully it returns
exactly the 500 `KeyError("sales")` envelope after the second sub-call. -/
theorem C1_dashboard_sales_keyerror :
    lookupD statisticsEndpoints "sales" = none ∧
    lookupD statisticsEndpoints "visitors" = none ∧
    (∀ (execO : ExecOracle) (sd ed gb : String),
      repoGetSalesStatistics execO sd ed gb = .error (.keyError "sales")) ∧
    (∀ (execO : ExecOracle) (today : String) (date : Option String),
      getKey (dashboardFull execO today date) "success" =
        some (.bool false)) ∧
    dashboardFull (fun _ _ _ => .ok (.obj [])) "2024-01-01" none =
      handleApiError (.keyError "sales") := by
  refine ⟨by simp [statisticsEndpoints, lookupD], by
    simp [statisticsEndpoints, lookupD], fun execO sd ed gb =>
    repoGetSalesStatistics_keyError execO sd ed gb, ?_, ?_⟩
  · intro execO today date
    obtain ⟨e, he⟩ := dashboardFull_always_error execO today date
    rw [he]
    exact (handleApiError_noPartialData e).1
  · rfl

end Cafe24
